import Mathlib

/-!
Verification development for the vapi-go-library repository: a shallow
embedding of the transcript-extraction heuristics (`pkg/voice/client.go`),
the webhook receiver and call processor (`pkg/voice/webhook.go`), the chat
request validation (`pkg/chat/client.go`), the Redis-backed event bus
registry (`pkg/events`), and the library lifecycle (`vapi.go`), together
with theorems settling the specification's claims about them.

Machine-specific aspects (real clocks, goroutine scheduling, the HTTP and
Redis transports) are modelled by explicit parameters: the remote API is an
oracle `String → Except String Call`, publish success is a boolean of the
environment, and time-derived event ids/timestamps are elided because no
claim mentions them.
-/

namespace Vapi

/-! ### Go string primitives

`strings.HasPrefix`, `strings.Contains`, `strings.TrimSpace`,
`strings.Split(s, "\n")` and `strings.SplitN(s, " ", 2)` as used by
`pkg/voice/client.go`. `goIsSpace` covers the ASCII white-space characters
of Go's `unicode.IsSpace`; the inputs at issue contain only spaces, tabs
and newlines. -/

def listStartsWith : List Char → List Char → Bool
  | _, [] => true
  | [], _ :: _ => false
  | a :: as, b :: bs => a = b && listStartsWith as bs

def goStartsWith (s sub : String) : Bool :=
  listStartsWith s.data sub.data

def listContainsSub : List Char → List Char → Bool
  | [], sub => sub.isEmpty
  | c :: rest, sub => listStartsWith (c :: rest) sub || listContainsSub rest sub

def goContains (s sub : String) : Bool :=
  listContainsSub s.data sub.data

def goIsSpace (c : Char) : Bool :=
  c = ' ' || c = '\t' || c = '\n' || c = '\x0b' || c = '\x0c' || c = '\r'

def goTrimSpace (s : String) : String :=
  ⟨((s.data.dropWhile goIsSpace).reverse.dropWhile goIsSpace).reverse⟩

/-- Splitting a character list on a separator character; like Go's
`strings.Split` with a one-character separator, the result is never empty
and the empty input yields one empty piece. -/
def splitCharsOn (sep : Char) : List Char → List (List Char)
  | [] => [[]]
  | c :: rest =>
    let r := splitCharsOn sep rest
    if c = sep then [] :: r
    else
      match r with
      | g :: gs => (c :: g) :: gs
      | [] => [[c]]

/-- `strings.Split(s, "\n")`. -/
def goSplitLines (s : String) : List String :=
  (splitCharsOn '\n' s.data).map String.mk

/-- The characters before the first space, and those after it when a space
occurs at all. -/
def breakAtSpace : List Char → List Char × Option (List Char)
  | [] => ([], none)
  | c :: rest =>
    if c = ' ' then ([], some rest)
    else
      let p := breakAtSpace rest
      (c :: p.1, p.2)

/-- `strings.SplitN(s, " ", 2)`: the part before the first space and the
remainder after it, verbatim. -/
def goSplitN2Space (s : String) : List String :=
  match breakAtSpace s.data with
  | (a, none) => [⟨a⟩]
  | (a, some b) => [⟨a⟩, ⟨b⟩]

/-! ### Transcript data model (`pkg/voice` types) -/

/-- `voice.Message` (role / text / content). -/
structure Message where
  role : String
  text : String
  content : String
deriving Repr, DecidableEq

/-- `voice.Analysis`: nil and empty transcript slices behave identically in
the extraction code, so the slice is a plain list. -/
structure Analysis where
  transcript : List Message
deriving Repr, DecidableEq

/-- `voice.Artifact` restricted to the fields `ExtractTranscript` reads. -/
structure Artifact where
  content : String
  transcript : List Message
deriving Repr, DecidableEq

/-- The dynamic type of the `Call.Transcript interface{}` field: the code
discriminates a string from a `[]Message`. -/
inductive TranscriptField where
  | str (s : String)
  | msgs (ms : List Message)
deriving Repr, DecidableEq

/-- `voice.Call` restricted to the fields the call processor reads. -/
structure Call where
  id : String
  assistantID : String
  status : String
  duration : Int
  analysis : Option Analysis
  artifacts : List Artifact
  transcript : Option TranscriptField
  messages : List Message
  conversation : List Message
deriving Repr, DecidableEq

/-! ### parseTranscriptContent (`pkg/voice/client.go:640`) -/

/-- The if-chain classifying a (trimmed) line as a speaker boundary:
`strings.HasPrefix` against `"AI" | "BOT" | "ASSISTANT"` for the assistant
role, then `"User" | "USER" | "CLIENT"` for the user role. -/
def lineRole (line : String) : Option String :=
  if goStartsWith line "AI" || goStartsWith line "BOT" || goStartsWith line "ASSISTANT" then
    some "assistant"
  else if goStartsWith line "User" || goStartsWith line "USER" || goStartsWith line "CLIENT" then
    some "user"
  else
    none

/-- Text after the speaker indicator: `strings.SplitN(line, " ", 2)` and
trim of the second part, `""` when the line has no space. -/
def markerText (line : String) : String :=
  match goSplitN2Space line with
  | _ :: t :: _ => goTrimSpace t
  | _ => ""

/-- Appending a continuation line to the accumulated turn text. -/
def joinText (text line : String) : String :=
  if text ≠ "" then text ++ " " ++ line else line

/-- Saving the pending turn: appended only when both a role and some text
have accumulated. -/
def flushTurn (role text : String) (acc : List Message) : List Message :=
  if role ≠ "" ∧ text ≠ "" then
    acc ++ [{ role := role, text := goTrimSpace text, content := "" }]
  else
    acc

/-- The main loop of `parseTranscriptContent` over the remaining lines,
carrying `currentRole`, `currentText` and the turns built so far. -/
def parseLines : List String → String → String → List Message → List Message
  | [], role, text, acc => flushTurn role text acc
  | l :: ls, role, text, acc =>
    let line := goTrimSpace l
    if line = "" then
      parseLines ls role text acc
    else
      match lineRole line with
      | some r => parseLines ls r (markerText line) (flushTurn role text acc)
      | none =>
        if role ≠ "" then parseLines ls role (joinText text line) acc
        else parseLines ls role text acc

/-- `parseTranscriptContent`: split the trimmed content into lines, skip a
first line containing `"Transcript"`, then run the accumulation loop. -/
def parseTranscriptContent (content : String) : List Message :=
  if content = "" then []
  else
    let lines := goSplitLines (goTrimSpace content)
    let rest :=
      match lines with
      | l0 :: ls => if goContains l0 "Transcript" then ls else lines
      | [] => lines
    parseLines rest "" "" []

/-! ### ExtractTranscript (`pkg/voice/client.go:592`) -/

/-- Whether an artifact's raw content carries a recognizable transcript
marker: `strings.Contains` against `"Transcript"`, `"AI"`, `"User"`. -/
def artifactContentHasMarkers (a : Artifact) : Bool :=
  goContains a.content "Transcript" || goContains a.content "AI" ||
    goContains a.content "User"

/-- The artifact scan at the end of `ExtractTranscript`: each artifact in
order, its structured transcript first, then its raw content when that
content is non-empty and carries a marker. -/
def extractFromArtifacts : List Artifact → List Message
  | [] => []
  | a :: rest =>
    if !a.transcript.isEmpty then a.transcript
    else if a.content != "" && artifactContentHasMarkers a then
      parseTranscriptContent a.content
    else
      extractFromArtifacts rest

/-- The tail of `ExtractTranscript` after the top-level `Transcript` field:
messages list, conversation list, artifacts. -/
def extractFromMessageLists (c : Call) : List Message :=
  if !c.messages.isEmpty then c.messages
  else if !c.conversation.isEmpty then c.conversation
  else extractFromArtifacts c.artifacts

/-- The middle of `ExtractTranscript`: the dynamically-typed top-level
`Transcript` field, a non-empty string being parsed heuristically and a
non-empty message slice returned as is. -/
def extractFromTopLevel (c : Call) : List Message :=
  match c.transcript with
  | some (.str s) => if s != "" then parseTranscriptContent s else extractFromMessageLists c
  | some (.msgs ms) => if !ms.isEmpty then ms else extractFromMessageLists c
  | none => extractFromMessageLists c

/-- `ExtractTranscript`: analysis transcript first, then the rest of the
chain. -/
def extractTranscript (c : Call) : List Message :=
  match c.analysis with
  | some a => if !a.transcript.isEmpty then a.transcript else extractFromTopLevel c
  | none => extractFromTopLevel c

/-! #### Specification-side precedence model

`transcriptCandidates` renders §4.3's amended precedence order as a flat
candidate list — analysis, structured top-level, raw top-level, messages,
conversation, then per artifact in order its structured transcript and its
marked raw content — of which the first present candidate is the result.
(A raw-text candidate is present as soon as the text is non-empty; its
parsed turns are the result even when the heuristic finds none.) -/

def firstPresent : List (Option (List Message)) → Option (List Message)
  | [] => none
  | o :: rest =>
    match o with
    | some x => some x
    | none => firstPresent rest

def artifactCandidates (a : Artifact) : List (Option (List Message)) :=
  [if !a.transcript.isEmpty then some a.transcript else none,
   if a.content != "" && artifactContentHasMarkers a then
     some (parseTranscriptContent a.content)
   else none]

def transcriptCandidates (c : Call) : List (Option (List Message)) :=
  [(match c.analysis with
    | some a => if !a.transcript.isEmpty then some a.transcript else none
    | none => none),
   (match c.transcript with
    | some (.msgs ms) => if !ms.isEmpty then some ms else none
    | _ => none),
   (match c.transcript with
    | some (.str s) => if s != "" then some (parseTranscriptContent s) else none
    | _ => none),
   (if !c.messages.isEmpty then some c.messages else none),
   (if !c.conversation.isEmpty then some c.conversation else none)] ++
  (c.artifacts.map artifactCandidates).flatten

/-- Transcript extraction as the specification phrases it: the first
present source in the amended precedence list, empty when none matches. -/
def specExtractTranscript (c : Call) : List Message :=
  (firstPresent (transcriptCandidates c)).getD []

/-! ### Events (`pkg/events/event.go`) and the webhook data model

Webhook bodies are decoded into `map[string]interface{}`; `JValue` is the
dynamic JSON value and a decoded body is its top-level field list. Event
ids and timestamps are time-derived and mentioned by no claim, so
`newEvent` carries type, source and payload. -/

inductive JValue where
  | str (s : String)
  | num (n : Int)
  | boolean (b : Bool)
  | null
  | arr (xs : List JValue)
  | obj (fields : List (String × JValue))

/-- Lookup of a key in a decoded JSON object (Go map indexing; keys of a
decoded object are unique). -/
def lookupField : List (String × JValue) → String → Option JValue
  | [], _ => none
  | (k, v) :: rest, key => if k = key then some v else lookupField rest key

/-- `voice.ProcessedCall` (the two `time.Now()` stamps elided). -/
structure ProcessedCall where
  id : String
  callID : String
  assistantID : String
  transcript : List Message
  duration : Int
  status : String

/-- The payload an event published by this repository carries: the raw
decoded webhook envelope or a processed call. -/
inductive EventData where
  | raw (fields : List (String × JValue))
  | processed (pc : ProcessedCall)

def eventCallCompleted : String := "vapi.call.completed"

def eventWebhookReceived : String := "vapi.webhook.received"

/-- `events.NewEvent` restricted to the claim-relevant fields. -/
structure Event where
  type : String
  source : String
  data : EventData

def newEvent (type source : String) (data : EventData) : Event :=
  { type := type, source := source, data := data }

/-! ### Webhook receiver and call processor (`pkg/voice/webhook.go`)

The environment carries what the Go code reads from the outside world:
whether a processor / event bus is configured, the remote `GetCall`
endpoint as an oracle, and whether `eventBus.Publish` succeeds. The
outcome records the returned error, the call ids fetched from the remote
API, and the events handed to `eventBus.Publish`, in order. -/

structure WebhookEnv where
  hasProcessor : Bool
  hasEventBus : Bool
  api : String → Except String Call
  pubOk : Bool

structure ProcOutcome where
  err : Option String
  fetched : List String
  published : List Event

/-- The type assertion `message["call"].(map[string]interface{})`: the
nested call object when present and an object. -/
def reportCallObject (message : List (String × JValue)) :
    Option (List (String × JValue)) :=
  match lookupField message "call" with
  | some (.obj callData) => some callData
  | _ => none

/-- The type assertion `v.(string)` on an optional field value. -/
def jStr : Option JValue → Option String
  | some (.str s) => some s
  | _ => none

/-- `CallProcessor.ProcessEndOfCallReport`: require `call` to be an object
with string `id` and `assistantId`, fetch the call, extract the
transcript, build the `ProcessedCall` and publish the call-completed
event. -/
def processEndOfCallReport (env : WebhookEnv) (message : List (String × JValue)) :
    ProcOutcome :=
  match reportCallObject message with
  | none => { err := some "no call data in end-of-call-report",
              fetched := [], published := [] }
  | some callData =>
    match jStr (lookupField callData "id") with
    | none => { err := some "no call ID in end-of-call-report",
                fetched := [], published := [] }
    | some callID =>
      match jStr (lookupField callData "assistantId") with
      | none => { err := some "no assistant ID in end-of-call-report",
                  fetched := [], published := [] }
      | some assistantID =>
        match env.api callID with
        | .error e =>
          { err := some ("failed to get call details: " ++ e),
            fetched := [callID], published := [] }
        | .ok call =>
          let pc : ProcessedCall :=
            { id := "processed_" ++ callID, callID := callID,
              assistantID := assistantID,
              transcript := extractTranscript call,
              duration := call.duration, status := call.status }
          if env.hasEventBus then
            let ev := newEvent eventCallCompleted "vapi-processor" (.processed pc)
            if env.pubOk then
              { err := none, fetched := [callID], published := [ev] }
            else
              { err := some "failed to publish call-completed event",
                fetched := [callID], published := [ev] }
          else
            { err := none, fetched := [callID], published := [] }

/-- `WebhookServer.processWebhookEvent` on an already-decoded body: a
missing or non-object `message`, a missing or non-string `message.type`,
and any type other than `"end-of-call-report"` are skipped silently; an
end-of-call report goes to the processor when one is configured, and is
otherwise republished raw on the bus. -/
def processWebhookEvent (env : WebhookEnv) (body : List (String × JValue)) :
    ProcOutcome :=
  match lookupField body "message" with
  | some (.obj message) =>
    match lookupField message "type" with
    | some (.str t) =>
      if t = "end-of-call-report" then
        if env.hasProcessor then processEndOfCallReport env message
        else if env.hasEventBus then
          let ev := newEvent eventWebhookReceived "vapi-webhook" (.raw body)
          if env.pubOk then { err := none, fetched := [], published := [ev] }
          else { err := some "failed to publish", fetched := [], published := [ev] }
        else { err := none, fetched := [], published := [] }
      else { err := none, fetched := [], published := [] }
    | _ => { err := none, fetched := [], published := [] }
  | _ => { err := none, fetched := [], published := [] }

/-- `handleVAPIWebhook` on a well-formed POST body: 500 when
`processWebhookEvent` errs, 200 otherwise. -/
def handleVAPIWebhook (env : WebhookEnv) (body : List (String × JValue)) : Nat :=
  if (processWebhookEvent env body).err.isSome then 500 else 200

/-- A report whose nested call identifiers fail the processor's type
assertions: `call` missing or not an object, or `id` / `assistantId`
missing or not strings. -/
def eocrCallBad (message : List (String × JValue)) : Bool :=
  match reportCallObject message with
  | none => true
  | some callData =>
    (jStr (lookupField callData "id")).isNone ||
    (jStr (lookupField callData "assistantId")).isNone

/-! ### Chat requests and their validation (`pkg/chat`) -/

/-- `chat.ChatMessage`. -/
structure ChatMessage where
  role : String
  content : String
  time : Int
  secondsFromStart : Int
deriving Repr, DecidableEq

/-- The dynamic type of `ChatInput` (`interface{}`): a string or a message
list. -/
inductive ChatInput where
  | text (s : String)
  | msgs (ms : List ChatMessage)
deriving Repr, DecidableEq

/-- `chat.Assistant` restricted to representative fields: validation only
ever tests the pointer for nil, never reads the configuration. -/
structure ChatAssistant where
  name : Option String
  firstMessage : Option String
deriving Repr, DecidableEq

/-- `chat.CreateChatRequest` restricted to the fields the client reads
(`AssistantOverrides` elided: never consulted). A nil pointer field is
`none`. -/
structure CreateChatRequest where
  input : Option ChatInput
  assistantID : Option String
  assistant : Option ChatAssistant
  name : Option String
  sessionID : Option String
  previousChatID : Option String
  stream : Option Bool
deriving Repr, DecidableEq

/-- `Client.ValidateRequest`: nil request, nil input, the absence of all
four identifiers, a sessionId/previousChatId conflict, and an over-long
name each return their own error; name length is Go's `len`, i.e. UTF-8
bytes. -/
def validateRequest (req : Option CreateChatRequest) : Option String :=
  match req with
  | none => some "request cannot be nil"
  | some r =>
    if r.input.isNone then some "input is required"
    else if r.assistantID.isNone && r.assistant.isNone && r.sessionID.isNone &&
        r.previousChatID.isNone then
      some "at least one of assistantId, assistant, sessionId, or previousChatId is required"
    else if r.sessionID.isSome && r.previousChatID.isSome then
      some "sessionId and previousChatId are mutually exclusive"
    else if (match r.name with | some n => Nat.blt 40 n.utf8ByteSize | none => false) then
      some "name must be 40 characters or less"
    else none

/-- What `CreateChat` / `CreateStreamingChat` do before (or instead of)
touching the network: `rejected e` is a validation error returned (or sent
on the error channel) with no network call; `sent r` is the payload that
goes on to the HTTP request. -/
inductive ChatAttempt where
  | rejected (msg : String)
  | sent (payload : CreateChatRequest)
deriving Repr, DecidableEq

def ChatAttempt.isSent : ChatAttempt → Bool
  | .sent _ => true
  | .rejected _ => false

/-- The pre-network gate of `Client.CreateChat`: nil request, nil input,
identifier presence and the sessionId/previousChatId conflict — and
nothing else — are checked before the HTTP call. -/
def createChatAttempt (req : Option CreateChatRequest) : ChatAttempt :=
  match req with
  | none => .rejected "request cannot be nil"
  | some r =>
    if r.input.isNone then .rejected "input is required"
    else if r.assistantID.isNone && r.assistant.isNone && r.sessionID.isNone &&
        r.previousChatID.isNone then
      .rejected "at least one of assistantId, assistant, sessionId, or previousChatId is required"
    else if r.sessionID.isSome && r.previousChatID.isSome then
      .rejected "sessionId and previousChatId are mutually exclusive"
    else .sent r

/-- The pre-network gate of `Client.CreateStreamingChat`: the same four
checks emitted on the error channel, then the payload sent with the
`Stream` flag forced on. -/
def createStreamingChatAttempt (req : Option CreateChatRequest) : ChatAttempt :=
  match req with
  | none => .rejected "request cannot be nil"
  | some r =>
    if r.input.isNone then .rejected "input is required"
    else if r.assistantID.isNone && r.assistant.isNone && r.sessionID.isNone &&
        r.previousChatID.isNone then
      .rejected "at least one of assistantId, assistant, sessionId, or previousChatId is required"
    else if r.sessionID.isSome && r.previousChatID.isSome then
      .rejected "sessionId and previousChatId are mutually exclusive"
    else .sent { r with stream := some true }

/-- The §3 invariants as the amended claims state them: at least one
identifier present, sessionId and previousChatId not both present, input
present, and a given name at most 40 bytes. -/
def chatRequestWellFormed (req : Option CreateChatRequest) : Bool :=
  match req with
  | none => false
  | some r =>
    r.input.isSome &&
    (r.assistantID.isSome || r.assistant.isSome || r.sessionID.isSome ||
      r.previousChatID.isSome) &&
    !(r.sessionID.isSome && r.previousChatID.isSome) &&
    (match r.name with | some n => Nat.ble n.utf8ByteSize 40 | none => true)

/-- The identifier-group checks alone, without the name-length invariant:
what the amended claim says the chat-creation gates enforce. -/
def chatGateAdmits (req : Option CreateChatRequest) : Bool :=
  match req with
  | none => false
  | some r =>
    r.input.isSome &&
    (r.assistantID.isSome || r.assistant.isSome || r.sessionID.isSome ||
      r.previousChatID.isSome) &&
    !(r.sessionID.isSome && r.previousChatID.isSome)

/-- The number of identifier-group fields present in a request, to state
the "exactly one" reading of §3. -/
def identifierCount (r : CreateChatRequest) : Nat :=
  (if r.assistantID.isSome then 1 else 0) + (if r.assistant.isSome then 1 else 0) +
  (if r.sessionID.isSome then 1 else 0) + (if r.previousChatID.isSome then 1 else 0)

/-! ### Redis event bus registry (`pkg/events`, example implementation)

`BusState` carries the local handler registry (event type → handler list,
a Go map modelled as an association list with unique keys) and the
background listener goroutines, one entry per `Subscribe` call, labelled
with the topic's event type. Handlers are compared by identity in Go, so
they are opaque numeric ids here. -/

structure BusState where
  handlers : List (String × List Nat)
  listeners : List String

def emptyBus : BusState :=
  { handlers := [], listeners := [] }

/-- Reading `r.handlers[eventType]` (a missing key is the nil slice). -/
def getHandlers (hs : List (String × List Nat)) (t : String) : List Nat :=
  match hs with
  | [] => []
  | (k, v) :: rest => if k = t then v else getHandlers rest t

/-- Writing `r.handlers[eventType] = v`. -/
def setHandlers (hs : List (String × List Nat)) (t : String) (v : List Nat) :
    List (String × List Nat) :=
  match hs with
  | [] => [(t, v)]
  | (k, w) :: rest => if k = t then (t, v) :: rest else (k, w) :: setHandlers rest t v

/-- `RedisEventBus.Subscribe`: appends the handler to the type's list and
unconditionally launches one more background listener on the type's
channel. -/
def subscribe (st : BusState) (t : String) (h : Nat) : BusState :=
  { handlers := setHandlers st.handlers t (getHandlers st.handlers t ++ [h]),
    listeners := st.listeners ++ [t] }

/-- The first occurrence of `h` removed, the Go loop's
`append(handlers[:i], handlers[i+1:]...)` with `break`. -/
def removeFirst : List Nat → Nat → List Nat
  | [], _ => []
  | x :: xs, h => if x = h then xs else x :: removeFirst xs h

/-- `RedisEventBus.Unsubscribe`: drops the first matching registration when
one exists, touches nothing else, and returns nil either way. -/
def unsubscribe (st : BusState) (t : String) (h : Nat) : BusState × Option String :=
  let hs := getHandlers st.handlers t
  if hs.contains h then
    ({ st with handlers := setHandlers st.handlers t (removeFirst hs h) }, none)
  else
    (st, none)

/-- The handler invocations one broker message on type `t`'s channel
causes: every listener on that channel receives the message and invokes
all handlers currently registered for `t`. -/
def deliverInvocations (st : BusState) (t : String) : List Nat :=
  ((st.listeners.filter (fun x => x = t)).map
    (fun _ => getHandlers st.handlers t)).flatten

/-! ### Library lifecycle (`vapi.go`)

Component start/stop results are environment booleans; `startResult` /
`stopResult` return the error, the new `running` flag, and (for `Start`)
whether the event bus was stopped again on the failure path. -/

structure LibEnv where
  eventBusStartOk : Bool
  voiceStartOk : Bool
  voiceStopOk : Bool
  eventBusStopOk : Bool

structure StartResult where
  err : Option String
  running : Bool
  busCleanedUp : Bool
deriving Repr, DecidableEq

structure StopResult where
  err : Option String
  running : Bool
deriving Repr, DecidableEq

/-- `Library.Start`. -/
def libraryStart (env : LibEnv) (running : Bool) : StartResult :=
  if running then
    { err := some "library is already running", running := running, busCleanedUp := false }
  else if !env.eventBusStartOk then
    { err := some "failed to start event bus", running := false, busCleanedUp := false }
  else if !env.voiceStartOk then
    { err := some "failed to start voice client", running := false, busCleanedUp := true }
  else
    { err := none, running := true, busCleanedUp := false }

/-- `Library.Stop`. -/
def libraryStop (env : LibEnv) (running : Bool) : StopResult :=
  if !running then
    { err := some "library is not running", running := running }
  else if !env.voiceStopOk then
    { err := some "failed to stop voice client", running := running }
  else if !env.eventBusStopOk then
    { err := some "failed to stop event bus", running := running }
  else
    { err := none, running := false }

/-! ### Concrete instances used by counterexamples and witnesses -/

/-- A decoded webhook body whose `message.type` is a string other than
`"end-of-call-report"`. -/
def statusUpdateBody : List (String × JValue) :=
  [("message", .obj [("type", .str "status-update")])]

/-- A receiver with no call processor but a live event bus whose publishes
succeed; the remote API is never consulted on the paths at issue. -/
def busOnlyEnv : WebhookEnv :=
  { hasProcessor := false, hasEventBus := true,
    api := fun _ => .error "unreachable", pubOk := true }

/-- A receiver with a configured call processor and a live event bus. -/
def processorEnv : WebhookEnv :=
  { hasProcessor := true, hasEventBus := true,
    api := fun _ => .error "unreachable", pubOk := true }

/-- An end-of-call-report body for a receiver with no processor. -/
def eocrNoProcBody : List (String × JValue) :=
  [("message", .obj [("type", .str "end-of-call-report")])]

/-- A bus registry with handler 1 registered twice for type `"a"`. -/
def dupHandlerBus : BusState :=
  { handlers := [("a", [1, 2, 1]), ("b", [3])], listeners := ["a"] }

/-- An end-of-call report whose nested call object lacks `assistantId`. -/
def reportMissingAssistant : List (String × JValue) :=
  [("type", .str "end-of-call-report"),
   ("call", .obj [("id", .str "call_123")])]

/-- The webhook body wrapping `reportMissingAssistant`. -/
def reportMissingAssistantBody : List (String × JValue) :=
  [("message", .obj reportMissingAssistant)]

/-- A 41-byte name: one byte over the validation limit. -/
def longName : String :=
  "01234567890123456789012345678901234567890"

/-- A request that satisfies every check the chat-creation gates make but
carries an over-long name. -/
def longNameReq : CreateChatRequest :=
  { input := some (.text "Hello"), assistantID := some "asst_1", assistant := none,
    name := some longName, sessionID := none, previousChatID := none, stream := none }

/-- A request presenting two identifiers of the §3 group at once. -/
def twoIdReq : CreateChatRequest :=
  { input := some (.text "Hello"), assistantID := some "asst_1",
    assistant := some { name := none, firstMessage := none },
    name := none, sessionID := none, previousChatID := none, stream := none }

/-- A request whose input is present but is the empty string. -/
def emptyInputReq : CreateChatRequest :=
  { input := some (.text ""), assistantID := some "asst_1", assistant := none,
    name := none, sessionID := none, previousChatID := none, stream := none }

/-- A call whose first artifact has raw marked content and whose second has
a structured transcript. -/
def artifactOrderCall : Call :=
  { id := "call_1", assistantID := "asst_1", status := "ended", duration := 10,
    analysis := none,
    artifacts := [{ content := "AI: hi", transcript := [] },
                  { content := "", transcript := [⟨"user", "yo", ""⟩] }],
    transcript := none, messages := [], conversation := [] }

/-! ## Helper lemmas -/

theorem getHandlers_setHandlers_same (hs : List (String × List Nat)) (t : String)
    (v : List Nat) : getHandlers (setHandlers hs t v) t = v := by
  induction hs with
  | nil => simp [setHandlers, getHandlers]
  | cons p rest ih =>
    obtain ⟨k, w⟩ := p
    by_cases hk : k = t
    · simp [setHandlers, getHandlers, hk]
    · simp [setHandlers, getHandlers, hk, ih]

theorem getHandlers_setHandlers_other (hs : List (String × List Nat)) (t t' : String)
    (v : List Nat) (hne : t' ≠ t) :
    getHandlers (setHandlers hs t v) t' = getHandlers hs t' := by
  have hne' : t ≠ t' := Ne.symm hne
  induction hs with
  | nil => simp [setHandlers, getHandlers, hne']
  | cons p rest ih =>
    obtain ⟨k, w⟩ := p
    by_cases hk : k = t
    · subst hk
      simp [setHandlers, getHandlers, hne']
    · simp [setHandlers, getHandlers, hk, ih]

theorem removeFirst_eq_erase (l : List Nat) (h : Nat) : removeFirst l h = l.erase h := by
  induction l with
  | nil => rfl
  | cons x xs ih =>
    by_cases hx : x = h
    · simp [removeFirst, List.erase_cons, hx]
    · simp [removeFirst, List.erase_cons, hx, ih]

theorem removeFirst_count_self (l : List Nat) (h : Nat) :
    (removeFirst l h).count h = l.count h - 1 := by
  rw [removeFirst_eq_erase]
  exact List.count_erase_self h l

theorem removeFirst_count_other (l : List Nat) (h x : Nat) (hx : x ≠ h) :
    (removeFirst l h).count x = l.count x := by
  rw [removeFirst_eq_erase]
  exact List.count_erase_of_ne hx l

theorem removeFirst_of_not_mem (l : List Nat) (h : Nat) (hm : h ∉ l) :
    removeFirst l h = l := by
  rw [removeFirst_eq_erase, List.erase_of_not_mem hm]

/-! ## Claim theorems -/

/-- C7: `parseTranscriptContent` applied to the literal input
`"Transcript\nAI: Hello there\nUser: Hi"` returns exactly two turns, in
order: an assistant turn with text `"Hello there"`, then a user turn with
text `"Hi"`. -/
theorem parseTranscriptContent_literal_two_turns :
    parseTranscriptContent "Transcript\nAI: Hello there\nUser: Hi" =
      [{ role := "assistant", text := "Hello there", content := "" },
       { role := "user", text := "Hi", content := "" }] := by decide

/-- C9: `Library.Start` succeeds exactly when the library is not running
and both components start, leaves the running flag unchanged on every
failure (already running, event-bus failure, voice-client failure), and
stops the event bus again exactly when the voice client is the component
that failed; `Library.Stop` succeeds exactly when running with both
components stopping cleanly, and clears the running flag exactly then (a
failed stop leaves the library marked running). -/
theorem library_start_stop_running_flag :
    ∀ (env : LibEnv) (running : Bool),
      ((libraryStart env running).err = none ↔
        running = false ∧ env.eventBusStartOk = true ∧ env.voiceStartOk = true) ∧
      ((libraryStart env running).running = true ↔
        running = true ∨ (env.eventBusStartOk = true ∧ env.voiceStartOk = true)) ∧
      ((libraryStart env running).busCleanedUp = true ↔
        running = false ∧ env.eventBusStartOk = true ∧ env.voiceStartOk = false) ∧
      ((libraryStop env running).err = none ↔
        running = true ∧ env.voiceStopOk = true ∧ env.eventBusStopOk = true) ∧
      ((libraryStop env running).running = false ↔
        running = false ∨ (env.voiceStopOk = true ∧ env.eventBusStopOk = true)) := by
  intro env running
  obtain ⟨a, b, c, d⟩ := env
  cases a <;> cases b <;> cases c <;> cases d <;> cases running <;> decide

/-- C10: `Unsubscribe` always returns nil; it leaves the listeners and
every other event type's handler list untouched, and replaces the given
type's list by that list with the first matching registration removed (so
a handler registered twice keeps one registration, and an unregistered
handler changes nothing). -/
theorem unsubscribe_removes_first_match_only :
    ∀ (st : BusState) (t : String) (h : Nat),
      ((unsubscribe st t h).2 = none) ∧
      ((unsubscribe st t h).1.listeners = st.listeners) ∧
      (∀ t', t' ≠ t →
        getHandlers (unsubscribe st t h).1.handlers t' = getHandlers st.handlers t') ∧
      (getHandlers (unsubscribe st t h).1.handlers t =
        removeFirst (getHandlers st.handlers t) h) ∧
      (h ∈ getHandlers st.handlers t →
        (removeFirst (getHandlers st.handlers t) h).count h =
          (getHandlers st.handlers t).count h - 1) ∧
      (h ∉ getHandlers st.handlers t →
        removeFirst (getHandlers st.handlers t) h = getHandlers st.handlers t) ∧
      (∀ x, x ≠ h →
        (removeFirst (getHandlers st.handlers t) h).count x =
          (getHandlers st.handlers t).count x) := by
  intro st t h
  refine ⟨?_, ?_, ?_, ?_, fun _ => removeFirst_count_self _ _,
    fun hm => removeFirst_of_not_mem _ _ hm,
    fun x hx => removeFirst_count_other _ _ _ hx⟩
  · by_cases hc : h ∈ getHandlers st.handlers t <;> simp [unsubscribe, hc]
  · by_cases hc : h ∈ getHandlers st.handlers t <;> simp [unsubscribe, hc]
  · intro t' ht'
    by_cases hc : h ∈ getHandlers st.handlers t <;>
      simp [unsubscribe, hc, getHandlers_setHandlers_other _ _ _ _ ht']
  · by_cases hc : h ∈ getHandlers st.handlers t
    · simp [unsubscribe, hc, getHandlers_setHandlers_same]
    · simp [unsubscribe, hc, removeFirst_of_not_mem _ _ hc]

/-- Witness for C10 at `dupHandlerBus`: the frame on type `"b"`, the
count dropping by one for the doubly-registered handler 1, and counts of
other handlers preserved. -/
theorem unsubscribe_removes_first_match_only_witness :
    ("b" ≠ "a" ∧
      getHandlers (unsubscribe dupHandlerBus "a" 1).1.handlers "b" =
        getHandlers dupHandlerBus.handlers "b") ∧
    (1 ∈ getHandlers dupHandlerBus.handlers "a" ∧
      (removeFirst (getHandlers dupHandlerBus.handlers "a") 1).count 1 =
        (getHandlers dupHandlerBus.handlers "a").count 1 - 1) ∧
    ((2 : Nat) ≠ 1 ∧
      (removeFirst (getHandlers dupHandlerBus.handlers "a") 1).count 2 =
        (getHandlers dupHandlerBus.handlers "a").count 2) :=
  ⟨⟨by decide, (unsubscribe_removes_first_match_only dupHandlerBus "a" 1).2.2.1 "b"
      (by decide)⟩,
   ⟨by decide, (unsubscribe_removes_first_match_only dupHandlerBus "a" 1).2.2.2.2.1
      (by decide)⟩,
   ⟨by decide, (unsubscribe_removes_first_match_only dupHandlerBus "a" 1).2.2.2.2.2.2 2
      (by decide)⟩⟩

/-- C2 counterexample: from a fresh bus, subscribing handlers 1 and 2 to
`"test.event"` leaves two background listeners, not one, and one published
event on that type invokes each handler twice — not exactly once as the
claim requires. -/
theorem subscribe_second_listener_double_delivery_cex :
    (subscribe (subscribe emptyBus "test.event" 1) "test.event" 2).listeners.length = 2 ∧
    deliverInvocations (subscribe (subscribe emptyBus "test.event" 1) "test.event" 2)
        "test.event" = [1, 2, 1, 2] ∧
    (deliverInvocations (subscribe (subscribe emptyBus "test.event" 1) "test.event" 2)
        "test.event").count 1 = 2 ∧
    ¬ ((deliverInvocations (subscribe (subscribe emptyBus "test.event" 1) "test.event" 2)
        "test.event").count 1 = 1) ∧
    ¬ ((deliverInvocations (subscribe (subscribe emptyBus "test.event" 1) "test.event" 2)
        "test.event").count 2 = 1) := by decide

/-- C2 amended: `Subscribe` launches one more background listener on every
call — not only on the first subscription for the topic — so after
subscribing two distinct handlers to the same event type on a fresh bus,
one published event of that type is received by both listeners and invokes
each of the two handlers exactly twice (once per listener). -/
theorem subscribe_listener_per_call_double_invoke :
    (∀ (st : BusState) (t : String) (h : Nat),
      (subscribe st t h).listeners = st.listeners ++ [t]) ∧
    (∀ (t : String) (a b : Nat), a ≠ b →
      (subscribe (subscribe emptyBus t a) t b).listeners = [t, t] ∧
      deliverInvocations (subscribe (subscribe emptyBus t a) t b) t = [a, b, a, b] ∧
      (deliverInvocations (subscribe (subscribe emptyBus t a) t b) t).count a = 2 ∧
      (deliverInvocations (subscribe (subscribe emptyBus t a) t b) t).count b = 2) := by
  constructor
  · intro st t h
    rfl
  · intro t a b hab
    have hst : subscribe (subscribe emptyBus t a) t b =
        { handlers := [(t, [a, b])], listeners := [t, t] } := by
      simp [subscribe, emptyBus, setHandlers, getHandlers]
    have hdel : deliverInvocations (subscribe (subscribe emptyBus t a) t b) t =
        [a, b, a, b] := by
      rw [hst]
      simp [deliverInvocations, getHandlers]
    refine ⟨by rw [hst], hdel, ?_, ?_⟩
    · rw [hdel]
      simp [List.count_cons, hab, Ne.symm hab]
    · rw [hdel]
      simp [List.count_cons, hab, Ne.symm hab]

/-- Witness for C2 at handlers 1 ≠ 2 on `"test.event"`. -/
theorem subscribe_listener_per_call_double_invoke_witness :
    (1 : Nat) ≠ 2 ∧
    deliverInvocations (subscribe (subscribe emptyBus "test.event" 1) "test.event" 2)
      "test.event" = [1, 2, 1, 2] ∧
    (subscribe emptyBus "test.event" 1).listeners = [] ++ ["test.event"] :=
  ⟨by decide,
   (subscribe_listener_per_call_double_invoke.2 "test.event" 1 2 (by decide)).2.1,
   subscribe_listener_per_call_double_invoke.1 emptyBus "test.event" 1⟩

/-- C1 counterexample: a webhook body whose `message.type` is the string
`"status-update"`, received with no processor configured and a live bus,
is acknowledged with success while nothing at all is published — not one
generic `vapi.webhook.received` event as the claim requires. -/
theorem processWebhook_nonReport_no_publish_cex :
    lookupField statusUpdateBody "message" =
      some (.obj [("type", .str "status-update")]) ∧
    busOnlyEnv.hasProcessor = false ∧
    (processWebhookEvent busOnlyEnv statusUpdateBody).err = none ∧
    (processWebhookEvent busOnlyEnv statusUpdateBody).published = [] ∧
    (processWebhookEvent busOnlyEnv statusUpdateBody).published.length ≠ 1 ∧
    handleVAPIWebhook busOnlyEnv statusUpdateBody = 200 :=
  ⟨rfl, rfl, rfl, rfl, by decide, rfl⟩

/-- C1 amended: a webhook body whose `message.type` is a string other than
`"end-of-call-report"` is skipped outright — nothing published, nothing
fetched, the HTTP caller still receives success — regardless of processor
or bus configuration; the raw envelope is wrapped in a generic
`vapi.webhook.received` event and published exactly once only when
`message.type` equals `"end-of-call-report"` and no processor is
configured (with a bus present and the publish succeeding). -/
theorem processWebhook_nonReport_skipped :
    (∀ (env : WebhookEnv) (body message : List (String × JValue)) (t : String),
      lookupField body "message" = some (.obj message) →
      lookupField message "type" = some (.str t) →
      t ≠ "end-of-call-report" →
      processWebhookEvent env body = { err := none, fetched := [], published := [] } ∧
      handleVAPIWebhook env body = 200) ∧
    (∀ (env : WebhookEnv) (body message : List (String × JValue)),
      env.hasProcessor = false → env.hasEventBus = true → env.pubOk = true →
      lookupField body "message" = some (.obj message) →
      lookupField message "type" = some (.str "end-of-call-report") →
      processWebhookEvent env body =
        { err := none, fetched := [],
          published := [newEvent eventWebhookReceived "vapi-webhook" (.raw body)] } ∧
      handleVAPIWebhook env body = 200) := by
  constructor
  · intro env body message t h1 h2 h3
    have hskip : processWebhookEvent env body =
        { err := none, fetched := [], published := [] } := by
      simp [processWebhookEvent, h1, h2, h3]
    exact ⟨hskip, by simp [handleVAPIWebhook, hskip]⟩
  · intro env body message hp hb hpub h1 h2
    have hout : processWebhookEvent env body =
        { err := none, fetched := [],
          published := [newEvent eventWebhookReceived "vapi-webhook" (.raw body)] } := by
      simp [processWebhookEvent, h1, h2, hp, hb, hpub]
    exact ⟨hout, by simp [handleVAPIWebhook, hout]⟩

/-- Witness for C1 amended: the `"status-update"` body is skipped, and the
same receiver republishes an end-of-call-report body it has no processor
for. -/
theorem processWebhook_nonReport_skipped_witness :
    (processWebhookEvent busOnlyEnv statusUpdateBody =
      { err := none, fetched := [], published := [] }) ∧
    (processWebhookEvent busOnlyEnv eocrNoProcBody =
      { err := none, fetched := [],
        published := [newEvent eventWebhookReceived "vapi-webhook"
          (.raw eocrNoProcBody)] }) :=
  ⟨(processWebhook_nonReport_skipped.1 busOnlyEnv statusUpdateBody
      [("type", .str "status-update")] "status-update" rfl rfl (by decide)).1,
   (processWebhook_nonReport_skipped.2 busOnlyEnv eocrNoProcBody
      [("type", .str "end-of-call-report")] rfl rfl rfl rfl rfl).1⟩

/-- C8: an end-of-call-report whose nested call object is missing or whose
`id` / `assistantId` is absent or not a string makes the processor return
an error without fetching the call from the remote API and without
publishing any event, and the webhook HTTP caller receives 500. -/
theorem processEndOfCallReport_bad_call_errors_500 :
    ∀ (env : WebhookEnv) (body message : List (String × JValue)),
      env.hasProcessor = true →
      lookupField body "message" = some (.obj message) →
      lookupField message "type" = some (.str "end-of-call-report") →
      eocrCallBad message = true →
      (processEndOfCallReport env message).err.isSome = true ∧
      (processEndOfCallReport env message).fetched = [] ∧
      (processEndOfCallReport env message).published = [] ∧
      processWebhookEvent env body = processEndOfCallReport env message ∧
      handleVAPIWebhook env body = 500 := by
  intro env body message hp h1 h2 hbad
  have hproc : (processEndOfCallReport env message).err.isSome = true ∧
      (processEndOfCallReport env message).fetched = [] ∧
      (processEndOfCallReport env message).published = [] := by
    unfold eocrCallBad at hbad
    cases hc : reportCallObject message with
    | none => simp [processEndOfCallReport, hc]
    | some callData =>
      rw [hc] at hbad
      cases hid : jStr (lookupField callData "id") with
      | none => simp [processEndOfCallReport, hc, hid]
      | some callID =>
        cases haid : jStr (lookupField callData "assistantId") with
        | none => simp [processEndOfCallReport, hc, hid, haid]
        | some assistantID => simp [hid, haid] at hbad
  have hroute : processWebhookEvent env body = processEndOfCallReport env message := by
    simp [processWebhookEvent, h1, h2, hp]
  refine ⟨hproc.1, hproc.2.1, hproc.2.2, hroute, ?_⟩
  simp [handleVAPIWebhook, hroute, hproc.1]

/-- Witness for C8: a report carrying only `call.id`, handled by a
receiver with a configured processor. -/
theorem processEndOfCallReport_bad_call_errors_500_witness :
    (processEndOfCallReport processorEnv reportMissingAssistant).err.isSome = true ∧
    (processEndOfCallReport processorEnv reportMissingAssistant).fetched = [] ∧
    (processEndOfCallReport processorEnv reportMissingAssistant).published = [] ∧
    handleVAPIWebhook processorEnv reportMissingAssistantBody = 500 := by
  have h := processEndOfCallReport_bad_call_errors_500 processorEnv
    reportMissingAssistantBody reportMissingAssistant rfl rfl rfl (by decide)
  exact ⟨h.1, h.2.1, h.2.2.1, h.2.2.2.2⟩

/-- C3 counterexample: a request whose name is 41 bytes long — violating
the §3 length invariant — passes both chat-creation gates and proceeds to
the network call instead of being rejected, even though `ValidateRequest`
itself would reject it; and a request presenting two identifiers of the §3
group (violating "exactly one") also proceeds. -/
theorem createChat_skips_name_check_cex :
    longName.utf8ByteSize = 41 ∧
    longNameReq.name = some longName ∧
    createChatAttempt (some longNameReq) = .sent longNameReq ∧
    createStreamingChatAttempt (some longNameReq) =
      .sent { longNameReq with stream := some true } ∧
    validateRequest (some longNameReq) = some "name must be 40 characters or less" ∧
    chatRequestWellFormed (some longNameReq) = false ∧
    identifierCount twoIdReq = 2 ∧
    createChatAttempt (some twoIdReq) = .sent twoIdReq := by decide

/-- C3 amended: `CreateChat` and `CreateStreamingChat` check nil-ness of
the request, presence of the input, presence of at least one §3
identifier, and the sessionId/previousChatId exclusion before any network
call, and reject with a validation error otherwise; they do not check the
name-length invariant (only `ValidateRequest` does), and the name field
never influences whether the request reaches the network. A request that
passes goes out unchanged, the streaming variant forcing the `Stream`
flag on. -/
theorem chatGates_check_identifiers_not_name :
    (∀ req, (createChatAttempt req).isSent = chatGateAdmits req) ∧
    (∀ req, (createStreamingChatAttempt req).isSent = chatGateAdmits req) ∧
    (∀ r : CreateChatRequest, chatGateAdmits (some r) = true →
      createChatAttempt (some r) = .sent r ∧
      createStreamingChatAttempt (some r) = .sent { r with stream := some true }) ∧
    (∀ (r : CreateChatRequest) (n : Option String),
      (createChatAttempt (some { r with name := n })).isSent =
        (createChatAttempt (some r)).isSent) := by
  refine ⟨?_, ?_, ?_, ?_⟩
  · intro req
    match req with
    | none => rfl
    | some r =>
      obtain ⟨i, aid, ast, nm, sid, pid, st⟩ := r
      cases i <;> cases aid <;> cases ast <;> cases sid <;> cases pid <;> rfl
  · intro req
    match req with
    | none => rfl
    | some r =>
      obtain ⟨i, aid, ast, nm, sid, pid, st⟩ := r
      cases i <;> cases aid <;> cases ast <;> cases sid <;> cases pid <;> rfl
  · intro r h
    obtain ⟨i, aid, ast, nm, sid, pid, st⟩ := r
    cases i <;> cases aid <;> cases ast <;> cases sid <;> cases pid <;>
      first
        | exact ⟨rfl, rfl⟩
        | simp [chatGateAdmits] at h
  · intro r n
    obtain ⟨i, aid, ast, nm, sid, pid, st⟩ := r
    cases i <;> cases aid <;> cases ast <;> cases sid <;> cases pid <;> rfl

/-- Witness for C3 amended at `longNameReq`, which the gates admit. -/
theorem chatGates_check_identifiers_not_name_witness :
    chatGateAdmits (some longNameReq) = true ∧
    createChatAttempt (some longNameReq) = .sent longNameReq ∧
    createStreamingChatAttempt (some longNameReq) =
      .sent { longNameReq with stream := some true } :=
  ⟨by decide,
   (chatGates_check_identifiers_not_name.2.2.1 longNameReq (by decide)).1,
   (chatGates_check_identifiers_not_name.2.2.1 longNameReq (by decide)).2⟩

/-- C4 counterexample: `ValidateRequest` returns nil for a request
presenting two identifiers of the §3 group at once — not exactly one as
the claim requires — and also for a request whose input is the empty
string. -/
theorem validateRequest_two_identifiers_cex :
    validateRequest (some twoIdReq) = none ∧
    identifierCount twoIdReq = 2 ∧
    identifierCount twoIdReq ≠ 1 ∧
    validateRequest (some emptyInputReq) = none ∧
    emptyInputReq.input = some (.text "") := by decide

/-- C4 amended: `ValidateRequest` returns nil exactly when the request is
non-nil, its input is present (an empty string passes), at least one of
the four §3 identifiers is present, sessionId and previousChatId are not
both present, and any given name is at most 40 bytes; each violated check
produces its own error, the five messages being pairwise distinct. -/
theorem validateRequest_iff_wellformed :
    (∀ req, validateRequest req = none ↔ chatRequestWellFormed req = true) ∧
    (validateRequest none = some "request cannot be nil") ∧
    (∀ r : CreateChatRequest,
      validateRequest (some { r with input := none }) = some "input is required") ∧
    (∀ (r : CreateChatRequest) (i : ChatInput),
      validateRequest (some { r with
        input := some i
        assistantID := none
        assistant := none
        sessionID := none
        previousChatID := none }) =
      some "at least one of assistantId, assistant, sessionId, or previousChatId is required") ∧
    (∀ (r : CreateChatRequest) (i : ChatInput) (s p : String),
      validateRequest (some { r with
        input := some i
        sessionID := some s
        previousChatID := some p }) =
      some "sessionId and previousChatId are mutually exclusive") ∧
    (∀ (r : CreateChatRequest) (i : ChatInput) (a n : String),
      Nat.blt 40 n.utf8ByteSize = true →
      validateRequest (some { r with
        input := some i
        assistantID := some a
        sessionID := none
        previousChatID := none
        name := some n }) =
      some "name must be 40 characters or less") ∧
    (["request cannot be nil", "input is required",
      "at least one of assistantId, assistant, sessionId, or previousChatId is required",
      "sessionId and previousChatId are mutually exclusive",
      "name must be 40 characters or less"].Pairwise (fun a b => a ≠ b)) := by
  refine ⟨?_, rfl, ?_, ?_, ?_, ?_, by decide⟩
  · intro req
    match req with
    | none => simp [validateRequest, chatRequestWellFormed]
    | some r =>
      obtain ⟨i, aid, ast, nm, sid, pid, st⟩ := r
      cases nm with
      | none =>
        cases i <;> cases aid <;> cases ast <;> cases sid <;> cases pid <;>
          simp [validateRequest, chatRequestWellFormed]
      | some n =>
        rcases Nat.lt_or_ge 40 n.utf8ByteSize with hlt | hle
        · have hbn : Nat.blt 40 n.utf8ByteSize = true := by
            rw [Nat.blt_eq]
            exact hlt
          cases i <;> cases aid <;> cases ast <;> cases sid <;> cases pid <;>
            simp [validateRequest, chatRequestWellFormed, hbn] <;> omega
        · have hbn : Nat.blt 40 n.utf8ByteSize = false := by
            rw [← Bool.not_eq_true, Nat.blt_eq]
            exact Nat.not_lt.mpr hle
          cases i <;> cases aid <;> cases ast <;> cases sid <;> cases pid <;>
            simp [validateRequest, chatRequestWellFormed, hbn] <;> omega
  · intro r
    obtain ⟨i, aid, ast, nm, sid, pid, st⟩ := r
    rfl
  · intro r i
    obtain ⟨i', aid, ast, nm, sid, pid, st⟩ := r
    rfl
  · intro r i s p
    obtain ⟨i', aid, ast, nm, sid, pid, st⟩ := r
    simp [validateRequest]
  · intro r i a n h
    obtain ⟨i', aid, ast, nm, sid, pid, st⟩ := r
    simp [validateRequest, h]

/-- Witness for C4 amended: the over-long-name check at a concrete
request. -/
theorem validateRequest_iff_wellformed_witness :
    Nat.blt 40 longName.utf8ByteSize = true ∧
    validateRequest (some { longNameReq with
      input := some (.text "Hello")
      assistantID := some "asst_1"
      sessionID := none
      previousChatID := none
      name := some longName }) = some "name must be 40 characters or less" :=
  ⟨by decide,
   validateRequest_iff_wellformed.2.2.2.2.2.1 longNameReq (.text "Hello") "asst_1"
     longName (by decide)⟩

/-- C5 counterexample: `artifactOrderCall` exposes exactly two transcript
sources — a later artifact's structured transcript (source 6 of §4.3) and
an earlier artifact's marker-bearing raw content (source 7) — and
`ExtractTranscript` returns the parse of the earlier artifact's raw
content, not the structured transcript the claimed order prefers. -/
theorem extractTranscript_artifact_order_cex :
    extractTranscript artifactOrderCall = [⟨"assistant", "hi", ""⟩] ∧
    artifactOrderCall.artifacts.map Artifact.transcript =
      [[], [⟨"user", "yo", ""⟩]] ∧
    artifactContentHasMarkers { content := "AI: hi", transcript := [] } = true ∧
    extractTranscript artifactOrderCall ≠ [⟨"user", "yo", ""⟩] := by decide

theorem extractFromArtifacts_eq_firstPresent (as : List Artifact) :
    extractFromArtifacts as =
      (firstPresent ((as.map artifactCandidates).flatten)).getD [] := by
  induction as with
  | nil => rfl
  | cons a rest ih =>
    by_cases h1 : a.transcript.isEmpty
    · by_cases h2 : ((a.content != "") && artifactContentHasMarkers a) = true
      · simp [extractFromArtifacts, artifactCandidates, firstPresent, h1, h2]
      · simp [extractFromArtifacts, artifactCandidates, firstPresent, h1, h2, ih]
    · simp [extractFromArtifacts, artifactCandidates, firstPresent, h1]

/-- C5 amended: extraction follows the flat precedence (1) analysis
transcript, (2) structured top-level transcript, (3) non-empty raw
top-level transcript — parsed heuristically, and returned even when the
parse yields no turns — (4) messages list, (5) conversation list, then the
artifacts scanned in order with each artifact's structured transcript
taking precedence over that same artifact's marker-bearing raw content;
the first present source wins and the transcript is empty when none is
present.  (The top-level field holds a single dynamic value, so sources 2
and 3 can never coexist.) -/
theorem extractTranscript_eq_spec_precedence :
    ∀ c : Call, extractTranscript c = specExtractTranscript c := by
  intro c
  have hart := extractFromArtifacts_eq_firstPresent c.artifacts
  have hmsgs : extractFromMessageLists c = (firstPresent
      ((if !c.messages.isEmpty then some c.messages else none) ::
       (if !c.conversation.isEmpty then some c.conversation else none) ::
       (c.artifacts.map artifactCandidates).flatten)).getD [] := by
    by_cases hm : c.messages.isEmpty
    · by_cases hc2 : c.conversation.isEmpty
      · simpa [extractFromMessageLists, firstPresent, hm, hc2] using hart
      · simp [extractFromMessageLists, firstPresent, hm, hc2]
    · simp [extractFromMessageLists, firstPresent, hm]
  have htop : extractFromTopLevel c = (firstPresent
      ((match c.transcript with
        | some (.msgs ms) => if !ms.isEmpty then some ms else none
        | _ => none) ::
       (match c.transcript with
        | some (.str s) => if s != "" then some (parseTranscriptContent s) else none
        | _ => none) ::
       (if !c.messages.isEmpty then some c.messages else none) ::
       (if !c.conversation.isEmpty then some c.conversation else none) ::
       (c.artifacts.map artifactCandidates).flatten)).getD [] := by
    cases ht : c.transcript with
    | none => simpa [extractFromTopLevel, firstPresent, ht] using hmsgs
    | some tf =>
      cases tf with
      | str s =>
        by_cases hs : s = ""
        · simpa [extractFromTopLevel, firstPresent, ht, hs] using hmsgs
        · simp [extractFromTopLevel, firstPresent, ht, hs]
      | msgs ms =>
        by_cases hm : ms.isEmpty
        · simpa [extractFromTopLevel, firstPresent, ht, hm] using hmsgs
        · simp [extractFromTopLevel, firstPresent, ht, hm]
  cases ha : c.analysis with
  | none =>
    simpa [extractTranscript, specExtractTranscript, transcriptCandidates,
      firstPresent, ha] using htop
  | some an =>
    by_cases hat : an.transcript.isEmpty
    · simpa [extractTranscript, specExtractTranscript, transcriptCandidates,
        firstPresent, ha, hat] using htop
    · simp [extractTranscript, specExtractTranscript, transcriptCandidates,
        firstPresent, ha, hat]

/-- C6 counterexample: lowercase speaker spellings — which a
case-insensitive reading of the markers would accept — are not recognized:
the lowercase transcript parses to no turns at all while its uppercase
twin parses to two, and `"Bot"` / `"Client"` spellings are likewise
dropped. -/
theorem parseTranscript_case_sensitive_cex :
    parseTranscriptContent "ai: hello\nuser: hi" = [] ∧
    parseTranscriptContent "AI: hello\nUser: hi" =
      [⟨"assistant", "hello", ""⟩, ⟨"user", "hi", ""⟩] ∧
    parseTranscriptContent "Bot: hey\nClient: yo" = [] ∧
    parseTranscriptContent "ai: hello\nuser: hi" ≠
      parseTranscriptContent "AI: hello\nUser: hi" := by decide

/-- C6 amended: the parser's line discipline — empty lines are skipped;
lines before any speaker marker are dropped; a marker line flushes the
pending turn (when it has accumulated text) and opens a new one with the
text after the indicator; non-marker lines extend the current turn; the
pending turn is flushed at end of input when non-empty — with the speaker
markers matched case-SENSITIVELY as the literal prefixes `"AI"`, `"BOT"`,
`"ASSISTANT"` (assistant role) and `"User"`, `"USER"`, `"CLIENT"` (user
role): lowercase and mixed-case spellings are not markers. -/
theorem parseLines_marker_discipline :
    (∀ (l : String) (ls : List String) (role text : String) (acc : List Message),
      goTrimSpace l = "" →
      parseLines (l :: ls) role text acc = parseLines ls role text acc) ∧
    (∀ (l : String) (ls : List String) (text : String) (acc : List Message),
      lineRole (goTrimSpace l) = none →
      parseLines (l :: ls) "" text acc = parseLines ls "" text acc) ∧
    (∀ (l : String) (ls : List String) (role text : String) (acc : List Message)
        (r : String),
      lineRole (goTrimSpace l) = some r →
      parseLines (l :: ls) role text acc =
        parseLines ls r (markerText (goTrimSpace l)) (flushTurn role text acc)) ∧
    (∀ (l : String) (ls : List String) (role text : String) (acc : List Message),
      role ≠ "" → goTrimSpace l ≠ "" → lineRole (goTrimSpace l) = none →
      parseLines (l :: ls) role text acc =
        parseLines ls role (joinText text (goTrimSpace l)) acc) ∧
    (∀ (role text : String) (acc : List Message),
      role ≠ "" → text ≠ "" →
      parseLines [] role text acc =
        acc ++ [{ role := role, text := goTrimSpace text, content := "" }]) ∧
    (lineRole "AI: x" = some "assistant" ∧ lineRole "ai: x" = none ∧
     lineRole "BOT hey" = some "assistant" ∧ lineRole "Bot hey" = none ∧
     lineRole "ASSISTANT: x" = some "assistant" ∧ lineRole "Assistant: x" = none ∧
     lineRole "User: x" = some "user" ∧ lineRole "USER: x" = some "user" ∧
     lineRole "user: x" = none ∧ lineRole "CLIENT: x" = some "user" ∧
     lineRole "client: x" = none ∧ lineRole "hello there" = none) := by
  refine ⟨?_, ?_, ?_, ?_, ?_, by decide⟩
  · intro l ls role text acc h
    simp [parseLines, h]
  · intro l ls text acc hr
    by_cases hl : goTrimSpace l = ""
    · simp [parseLines, hl]
    · simp [parseLines, hl, hr]
  · intro l ls role text acc r hr
    have hl : goTrimSpace l ≠ "" := by
      intro he
      rw [he] at hr
      rw [show lineRole "" = none from rfl] at hr
      exact Option.noConfusion hr
    simp [parseLines, hl, hr]
  · intro l ls role text acc hrole hl hr
    simp [parseLines, hl, hr, hrole]
  · intro role text acc hrole htext
    simp [parseLines, flushTurn, hrole, htext]

/-- Witness for C6 amended: each line-discipline clause at a concrete
input. -/
theorem parseLines_marker_discipline_witness :
    (goTrimSpace "   " = "" ∧
      parseLines ["   ", "AI: x"] "" "" [] = parseLines ["AI: x"] "" "" []) ∧
    (lineRole (goTrimSpace "chatter") = none ∧
      parseLines ["chatter", "AI: x"] "" "" [] = parseLines ["AI: x"] "" "" []) ∧
    (lineRole (goTrimSpace "User: hi") = some "user" ∧
      parseLines ["User: hi"] "assistant" "hello" [] =
        parseLines [] "user" (markerText (goTrimSpace "User: hi"))
          (flushTurn "assistant" "hello" [])) ∧
    ("assistant" ≠ "" ∧ goTrimSpace "and more" ≠ "" ∧
      lineRole (goTrimSpace "and more") = none ∧
      parseLines ["and more"] "assistant" "hello" [] =
        parseLines [] "assistant" (joinText "hello" (goTrimSpace "and more")) []) ∧
    ("user" ≠ "" ∧ "hi" ≠ "" ∧
      parseLines [] "user" "hi" [] =
        [] ++ [{ role := "user", text := goTrimSpace "hi", content := "" }]) :=
  ⟨⟨rfl, parseLines_marker_discipline.1 "   " ["AI: x"] "" "" [] rfl⟩,
   ⟨rfl, parseLines_marker_discipline.2.1 "chatter" ["AI: x"] "" [] rfl⟩,
   ⟨rfl, parseLines_marker_discipline.2.2.1 "User: hi" [] "assistant" "hello" []
      "user" rfl⟩,
   ⟨by decide, by decide, rfl,
    parseLines_marker_discipline.2.2.2.1 "and more" [] "assistant" "hello" []
      (by decide) (by decide) rfl⟩,
   ⟨by decide, by decide,
    parseLines_marker_discipline.2.2.2.2.1 "user" "hi" [] (by decide) (by decide)⟩⟩

end Vapi
